import Mathlib

/-!
Shallow embedding of `deep_control/discor.py` (the DisCor trainer).

Neural networks are modelled as parameter vectors (`P → ℝ` for the
critic/delta networks, `Q → ℝ` for the actor) together with an abstract
architecture `Arch` that gives each network class its forward map; the
spec treats the architectures as black-box function approximators.
Optimizer steps (`torch.optim.Adam(...).step()`) are modelled as opaque
functions from the scalar loss and the current parameters to new
parameters: the spec excludes optimizer internals, and no claim
quantifies over what a gradient step produces — only over what it reads
and what it leaves untouched.  All tensor arithmetic is over ℝ; a batch
of size `B` is a family of `Fin B`-indexed values (`dim=0` is the batch
dimension).
-/

noncomputable section

namespace DeepControl

open Finset

/-- Architecture capability: the forward maps of the network classes used by
`DisCorAgent` (`nets.StochasticActor` for the actor, `nets.BigCritic` for the
critics and the delta networks).  `S` is the observation type, `A` the action
type, `P` the parameter index of a critic/delta network, `Q` that of the actor.
`actorSample` models drawing one action from the actor distribution at a state
(`act_dist.sample()` / `act_dist.rsample()`), and `actorLogProb` the summed
log-probability of that drawn action (`log_prob(a).sum(-1)`); `actorMean` is
the distribution mean used by `DisCorAgent.forward`. -/
structure Arch (S A P Q : Type) where
  criticFwd : (P → ℝ) → S → A → ℝ
  deltaFwd : (P → ℝ) → S → A → ℝ
  actorMean : (Q → ℝ) → S → A
  actorSample : (Q → ℝ) → S → A
  actorLogProb : (Q → ℝ) → S → ℝ

/-- The five independently parameterized networks owned by a `DisCorAgent`
(`discor.py` lines 30–49). -/
structure DisCorAgent (P Q : Type) where
  actor : Q → ℝ
  critic1 : P → ℝ
  critic2 : P → ℝ
  delta1 : P → ℝ
  delta2 : P → ℝ

/-- One sampled batch of `B` transitions, the five aligned arrays returned by
`buffer.sample(batch_size)`.  The `done` flags are stored as reals (the code
uses them in the arithmetic expression `1.0 - done_batch`). -/
structure Batch (S A : Type) (B : ℕ) where
  state : Fin B → S
  action : Fin B → A
  reward : Fin B → ℝ
  nextState : Fin B → S
  done : Fin B → ℝ

/-- Replay-buffer capability: `prioritized` records whether the buffer is a
`replay.PrioritizedReplayBuffer` (the class checked by the assertion at the
top of `learn_discor`), and `sample n` models `buffer.sample(n)`. -/
structure ReplayBuffer (S A : Type) where
  prioritized : Bool
  sample : (n : ℕ) → Batch S A n

/-- Opaque gradient steps returned by the four Adam optimizers built in
`discor` (lines 199–226): each maps the scalar loss and the current
parameters of the networks it owns to their updated parameters.  The critic
optimizer owns both critics jointly, the delta optimizer both delta
networks jointly, and the alpha optimizer owns the single scalar
`log_alpha`. -/
structure Optimizers (P Q : Type) where
  criticStep : ℝ → (P → ℝ) × (P → ℝ) → (P → ℝ) × (P → ℝ)
  deltaStep : ℝ → (P → ℝ) × (P → ℝ) → (P → ℝ) × (P → ℝ)
  actorStep : ℝ → (Q → ℝ) → Q → ℝ
  alphaStep : ℝ → ℝ → ℝ

/-- The mutable state threaded through training: the live agent, the target
agent, the learned entropy coefficient in log space, and the two DisCor
temperatures. -/
structure LearnState (P Q : Type) where
  agent : DisCorAgent P Q
  targetAgent : DisCorAgent P Q
  logAlpha : ℝ
  temp1 : ℝ
  temp2 : ℝ

/-- Softmax over the batch dimension, `torch.softmax(x, dim=0)`. -/
def softmax {B : ℕ} (x : Fin B → ℝ) (i : Fin B) : ℝ :=
  Real.exp (x i) / ∑ j, Real.exp (x j)

/-- Mean over the batch dimension, `torch.mean`. -/
def batchMean {B : ℕ} (x : Fin B → ℝ) : ℝ :=
  (∑ i, x i) / B

/-- Result of one `learn_discor` call: the updated training state plus the
intermediate tensors the update computed on the way. -/
structure LearnOut (S A P Q : Type) (B : ℕ) extends LearnState P Q where
  action_s1 : Fin B → A
  td_target : Fin B → ℝ
  disCor_weights1 : Fin B → ℝ
  disCor_weights2 : Fin B → ℝ
  td_error1 : Fin B → ℝ
  td_error2 : Fin B → ℝ
  critic_loss : ℝ
  target_delta1 : Fin B → ℝ
  target_delta2 : Fin B → ℝ
  delta1_pred : Fin B → ℝ
  delta2_pred : Fin B → ℝ
  delta_loss : ℝ

/-- The body of `learn_discor` (`discor.py` lines 323–442) after the batch has
been sampled: the critic update, the DisCor delta update, the temperature
update, and — when `update_policy` — the actor and alpha updates, translated
statement by statement.  Values computed under `torch.no_grad()` in the source
are ordinary values here; gradient bookkeeping has no observable effect on the
computed numbers. -/
def learnDiscorBatch {S A P Q : Type} {B : ℕ} (arch : Arch S A P Q)
    (opt : Optimizers P Q) (targetEntropy gamma tau : ℝ) (updatePolicy : Bool)
    (st : LearnState P Q) (batch : Batch S A B) : LearnOut S A P Q B :=
  let alpha := Real.exp st.logAlpha
  let action_s1 := fun i => arch.actorSample st.agent.actor (batch.nextState i)
  let logp_a1 := fun i => arch.actorLogProb st.agent.actor (batch.nextState i)
  let target_action_value_s1 := fun i =>
    min (arch.criticFwd st.targetAgent.critic1 (batch.nextState i) (action_s1 i))
      (arch.criticFwd st.targetAgent.critic2 (batch.nextState i) (action_s1 i))
  let td_target := fun i =>
    batch.reward i +
      gamma * (1 - batch.done i) * (target_action_value_s1 i - alpha * logp_a1 i)
  let target_delta1_s1 := fun i =>
    arch.deltaFwd st.targetAgent.delta1 (batch.nextState i) (action_s1 i)
  let target_delta2_s1 := fun i =>
    arch.deltaFwd st.targetAgent.delta2 (batch.nextState i) (action_s1 i)
  let disCor_weights1 := fun i =>
    (B : ℝ) * softmax (fun j =>
      -(1 - batch.done j) * gamma *
        arch.deltaFwd st.agent.delta1 (batch.nextState j) (action_s1 j) / st.temp1) i
  let disCor_weights2 := fun i =>
    (B : ℝ) * softmax (fun j =>
      -(1 - batch.done j) * gamma *
        arch.deltaFwd st.agent.delta2 (batch.nextState j) (action_s1 j) / st.temp2) i
  let agent_critic1_pred := fun i =>
    arch.criticFwd st.agent.critic1 (batch.state i) (batch.action i)
  let agent_critic2_pred := fun i =>
    arch.criticFwd st.agent.critic2 (batch.state i) (batch.action i)
  let td_error1 := fun i => td_target i - agent_critic1_pred i
  let td_error2 := fun i => td_target i - agent_critic2_pred i
  let critic1_loss := fun i => disCor_weights1 i * (td_error1 i) ^ 2
  let critic2_loss := fun i => disCor_weights2 i * (td_error2 i) ^ 2
  let critic_loss := batchMean (fun i => critic1_loss i + critic2_loss i)
  let critics' := opt.criticStep critic_loss (st.agent.critic1, st.agent.critic2)
  let target_delta1 := fun i =>
    |td_error1 i| + gamma * (1 - batch.done i) * target_delta1_s1 i
  let target_delta2 := fun i =>
    |td_error2 i| + gamma * (1 - batch.done i) * target_delta2_s1 i
  let delta1_pred := fun i =>
    arch.deltaFwd st.agent.delta1 (batch.state i) (batch.action i)
  let delta2_pred := fun i =>
    arch.deltaFwd st.agent.delta2 (batch.state i) (batch.action i)
  let delta1_loss := fun i => (target_delta1 i - delta1_pred i) ^ 2
  let delta2_loss := fun i => (target_delta2 i - delta2_pred i) ^ 2
  let delta_loss := batchMean (fun i => delta1_loss i + delta2_loss i)
  let deltas' := opt.deltaStep delta_loss (st.agent.delta1, st.agent.delta2)
  let temp1' := st.temp1 * (1 - tau) + tau * batchMean delta1_pred
  let temp2' := st.temp2 * (1 - tau) + tau * batchMean delta2_pred
  let actor' :=
    if updatePolicy then
      let agent_actions := fun i => arch.actorSample st.agent.actor (batch.state i)
      let logp_a := fun i => arch.actorLogProb st.agent.actor (batch.state i)
      let actor_loss := -(batchMean (fun i =>
        min (arch.criticFwd critics'.1 (batch.state i) (agent_actions i))
            (arch.criticFwd critics'.2 (batch.state i) (agent_actions i)) -
          alpha * logp_a i))
      opt.actorStep actor_loss st.agent.actor
    else st.agent.actor
  let logAlpha' :=
    if updatePolicy then
      let logp_a := fun i => arch.actorLogProb st.agent.actor (batch.state i)
      let alpha_loss := batchMean (fun i => -alpha * (logp_a i + targetEntropy))
      opt.alphaStep alpha_loss st.logAlpha
    else st.logAlpha
  { agent :=
      { actor := actor', critic1 := critics'.1, critic2 := critics'.2,
        delta1 := deltas'.1, delta2 := deltas'.2 }
    targetAgent := st.targetAgent
    logAlpha := logAlpha'
    temp1 := temp1'
    temp2 := temp2'
    action_s1 := action_s1
    td_target := td_target
    disCor_weights1 := disCor_weights1
    disCor_weights2 := disCor_weights2
    td_error1 := td_error1
    td_error2 := td_error2
    critic_loss := critic_loss
    target_delta1 := target_delta1
    target_delta2 := target_delta2
    delta1_pred := delta1_pred
    delta2_pred := delta2_pred
    delta_loss := delta_loss }

/-- Message of the assertion guarding `learn_discor` (`discor.py` line 321). -/
def prioritizedBufferMsg : String :=
  "AssertionError: learn_discor requires a uniform (non-prioritized) replay buffer"

/-- Full `learn_discor` call: first the assertion that the buffer is not a
`PrioritizedReplayBuffer`, then `buffer.sample(batch_size)`, then the update
body.  A firing assertion aborts the call before any batch is sampled and
before any state is produced. -/
def learn_discor {S A P Q : Type} (arch : Arch S A P Q) (opt : Optimizers P Q)
    (targetEntropy : ℝ) (batchSize : ℕ) (gamma tau : ℝ) (updatePolicy : Bool)
    (buffer : ReplayBuffer S A) (st : LearnState P Q) :
    Except String (LearnOut S A P Q batchSize) :=
  match buffer.prioritized with
  | true => Except.error prioritizedBufferMsg
  | false =>
      Except.ok (learnDiscorBatch arch opt targetEntropy gamma tau updatePolicy st
        (buffer.sample batchSize))

/-- Modelled from the spec: `utils.hard_update` (called at `discor.py` lines
192–196; the `utils` module is not part of the sources here) — a "hard update"
is a direct copy of live parameters into target parameters. -/
def hard_update {P : Type} (_target live : P → ℝ) : P → ℝ := live

/-- Modelled from the spec: `utils.soft_update` (called at `discor.py` lines
280–284; the `utils` module is not part of the sources here) — a "soft update"
moves the target toward the live parameters parameter-by-parameter at rate τ:
`target = target·(1−τ) + live·τ`. -/
def soft_update {P : Type} (target live : P → ℝ) (tau : ℝ) : P → ℝ :=
  fun p => target p * (1 - tau) + live p * tau

/-- Target-agent construction at the top of `discor` (lines 190–197):
`copy.deepcopy(agent)` followed by `hard_update` of the two critics and the
two delta networks. -/
def initTargetAgent {P Q : Type} (agent : DisCorAgent P Q) : DisCorAgent P Q :=
  let target := agent
  { target with
    critic1 := hard_update target.critic1 agent.critic1
    critic2 := hard_update target.critic2 agent.critic2
    delta1 := hard_update target.delta1 agent.delta1
    delta2 := hard_update target.delta2 agent.delta2 }

/-- Done-flag bookkeeping of one environment interaction in the `discor`
rollout loop (lines 246–255): `envDone` is the flag returned by
`train_env.step`; the first component of the result is the flag pushed to the
buffer, the second the episode-termination flag carried to the next
iteration (after `steps_this_ep += 1` and the `steps_this_ep >=
max_episode_steps` cutoff). -/
def rolloutDoneFlags (infiniteBootstrap : Bool) (maxEpisodeSteps stepsThisEp : ℕ)
    (envDone : Bool) : Bool × Bool :=
  let done := envDone
  let done := if infiniteBootstrap then
      (if stepsThisEp + 1 = maxEpisodeSteps then false else done)
    else done
  let pushedDone := done
  let stepsThisEp' := stepsThisEp + 1
  let done := if maxEpisodeSteps ≤ stepsThisEp' then true else done
  (pushedDone, done)

/-- Configuration of the `discor` training loop as far as the parameter-update
schedule is concerned: the architecture, the optimizers, the scalar
hyperparameters, the delays, and the stream of batches drawn by the successive
`buffer.sample(batch_size)` calls (`sampleSeq k` is the `k`-th draw). -/
structure LoopCfg (S A P Q : Type) (Bsz : ℕ) where
  arch : Arch S A P Q
  opt : Optimizers P Q
  targetEntropy : ℝ
  gamma : ℝ
  tau : ℝ
  targetDelay : ℕ
  actorDelay : ℕ
  gradientUpdatesPerStep : ℕ
  sampleSeq : ℕ → Batch S A Bsz

/-- The `for _ in range(gradient_updates_per_step)` loop of one `discor` step
(lines 257–277): each iteration calls `learn_discor` with
`update_policy = (step % actor_delay == 0)` on a freshly sampled batch. -/
def gradientPhase {S A P Q : Type} {Bsz : ℕ} (cfg : LoopCfg S A P Q Bsz)
    (step : ℕ) (st : LearnState P Q) : LearnState P Q :=
  (List.range cfg.gradientUpdatesPerStep).foldl
    (fun s g =>
      (learnDiscorBatch cfg.arch cfg.opt cfg.targetEntropy cfg.gamma cfg.tau
        (step % cfg.actorDelay == 0) s
        (cfg.sampleSeq (step * cfg.gradientUpdatesPerStep + g))).toLearnState)
    st

/-- The parameter-mutating part of one iteration of the `discor` training loop
(lines 257–284): the gradient updates, then — on steps with
`step % target_delay == 0` — the soft update of the four target networks
toward their live counterparts.  Environment rollout, evaluation and
checkpointing mutate no network parameters. -/
def discorStepBody {S A P Q : Type} {Bsz : ℕ} (cfg : LoopCfg S A P Q Bsz)
    (step : ℕ) (st : LearnState P Q) : LearnState P Q :=
  let st1 := gradientPhase cfg step st
  if step % cfg.targetDelay = 0 then
    { st1 with targetAgent :=
        { st1.targetAgent with
          critic1 := soft_update st1.targetAgent.critic1 st1.agent.critic1 cfg.tau
          critic2 := soft_update st1.targetAgent.critic2 st1.agent.critic2 cfg.tau
          delta1 := soft_update st1.targetAgent.delta1 st1.agent.delta1 cfg.tau
          delta2 := soft_update st1.targetAgent.delta2 st1.agent.delta2 cfg.tau } }
  else st1

/-- Post-processing of an action leaving the agent (`DisCorAgent.process_act`,
line 125–126): clamp every component to `[-1, 1]` (`act.clamp(-1.0, 1.0)`,
which is `min (max x (-1)) 1` componentwise; the squeeze of the batch
dimension is implicit in the single-action model). -/
def process_act {m : ℕ} (act : Fin m → ℝ) : Fin m → ℝ :=
  fun i => min (max (act i) (-1)) 1

/-- Deterministic action selection, `DisCorAgent.forward` (lines 96–106): the
mean of the actor distribution, post-processed by `process_act` when
`from_cpu` (the `process_state` conversion on the way in is value-preserving
numpy-to-tensor plumbing). -/
def DisCorAgent.forward {S P Q : Type} {m : ℕ} (arch : Arch S (Fin m → ℝ) P Q)
    (agent : DisCorAgent P Q) (state : S) (fromCpu : Bool) : Fin m → ℝ :=
  let act := arch.actorMean agent.actor state
  if fromCpu then process_act act else act

/-- Stochastic action selection, `DisCorAgent.sample_action` (lines 108–118):
a sample from the actor distribution, post-processed by `process_act` when
`from_cpu`. -/
def DisCorAgent.sample_action {S P Q : Type} {m : ℕ} (arch : Arch S (Fin m → ℝ) P Q)
    (agent : DisCorAgent P Q) (state : S) (fromCpu : Bool) : Fin m → ℝ :=
  let act := arch.actorSample agent.actor state
  if fromCpu then process_act act else act

/-! Helper lemmas. -/

theorem sum_softmax_eq_one {B : ℕ} (hB : 0 < B) (x : Fin B → ℝ) :
    ∑ i, softmax x i = 1 := by
  haveI : Nonempty (Fin B) := Fin.pos_iff_nonempty.mp hB
  have hne : (Finset.univ : Finset (Fin B)).Nonempty := Finset.univ_nonempty
  have hpos : 0 < ∑ j, Real.exp (x j) :=
    Finset.sum_pos (fun j _ => Real.exp_pos (x j)) hne
  unfold softmax
  rw [← Finset.sum_div, div_self (ne_of_gt hpos)]

theorem sum_card_mul_softmax {B : ℕ} (x : Fin B → ℝ) :
    ∑ i, (B : ℝ) * softmax x i = B := by
  rcases Nat.eq_zero_or_pos B with hB | hB
  · subst hB
    simp
  · rw [← Finset.mul_sum, sum_softmax_eq_one hB x, mul_one]

theorem foldl_preserves_targetAgent {P Q α : Type}
    (f : LearnState P Q → α → LearnState P Q)
    (hf : ∀ s a, (f s a).targetAgent = s.targetAgent) :
    ∀ (l : List α) (st : LearnState P Q), (l.foldl f st).targetAgent = st.targetAgent
  | [], _ => rfl
  | a :: l, st => by
      rw [List.foldl_cons, foldl_preserves_targetAgent f hf l, hf]

theorem gradientPhase_targetAgent {S A P Q : Type} {Bsz : ℕ}
    (cfg : LoopCfg S A P Q Bsz) (step : ℕ) (st : LearnState P Q) :
    (gradientPhase cfg step st).targetAgent = st.targetAgent :=
  foldl_preserves_targetAgent
    (fun s g =>
      (learnDiscorBatch cfg.arch cfg.opt cfg.targetEntropy cfg.gamma cfg.tau
        (step % cfg.actorDelay == 0) s
        (cfg.sampleSeq (step * cfg.gradientUpdatesPerStep + g))).toLearnState)
    (fun _ _ => rfl) (List.range cfg.gradientUpdatesPerStep) st

/-! Concrete instances used by the witnesses. -/

def unitArch : Arch Unit Unit Unit Unit where
  criticFwd := fun _ _ _ => 0
  deltaFwd := fun _ _ _ => 0
  actorMean := fun _ _ => ()
  actorSample := fun _ _ => ()
  actorLogProb := fun _ _ => 0

def unitAgent : DisCorAgent Unit Unit where
  actor := fun _ => 0
  critic1 := fun _ => 0
  critic2 := fun _ => 0
  delta1 := fun _ => 0
  delta2 := fun _ => 0

def unitOpt : Optimizers Unit Unit where
  criticStep := fun _ p => p
  deltaStep := fun _ p => p
  actorStep := fun _ a => a
  alphaStep := fun _ x => x

def unitState : LearnState Unit Unit where
  agent := unitAgent
  targetAgent := unitAgent
  logAlpha := 0
  temp1 := 1
  temp2 := 1

def unitBatch : Batch Unit Unit 1 where
  state := fun _ => ()
  action := fun _ => ()
  reward := fun _ => 0
  nextState := fun _ => ()
  done := fun _ => 0

def unitBatchFamily (n : ℕ) : Batch Unit Unit n where
  state := fun _ => ()
  action := fun _ => ()
  reward := fun _ => 0
  nextState := fun _ => ()
  done := fun _ => 0

def uniformUnitBuffer : ReplayBuffer Unit Unit where
  prioritized := false
  sample := unitBatchFamily

def prioritizedUnitBuffer : ReplayBuffer Unit Unit where
  prioritized := true
  sample := unitBatchFamily

def unitCfg : LoopCfg Unit Unit Unit Unit 1 where
  arch := unitArch
  opt := unitOpt
  targetEntropy := 0
  gamma := 0
  tau := 0
  targetDelay := 2
  actorDelay := 1
  gradientUpdatesPerStep := 1
  sampleSeq := fun _ => unitBatch

/-! Claim theorems. -/

/-- C1: for every sampled batch of size B, each critic's DisCor weight vector
is B times the softmax (over the batch dimension) of
`−(1−done)·γ·delta_k(next_state, next_action)/temp_k`, so the sum of each of
the two weight vectors equals B, for every value of the delta-network
outputs, done flags, γ, and positive temperature. -/
theorem learn_discor_weights_sum_eq_batch_size {S A P Q : Type} {B : ℕ}
    (arch : Arch S A P Q) (opt : Optimizers P Q) (targetEntropy gamma tau : ℝ)
    (updatePolicy : Bool) (st : LearnState P Q) (batch : Batch S A B)
    (_h1 : 0 < st.temp1) (_h2 : 0 < st.temp2) :
    (learnDiscorBatch arch opt targetEntropy gamma tau updatePolicy st
        batch).disCor_weights1 =
      (fun i => (B : ℝ) * softmax (fun j =>
        -(1 - batch.done j) * gamma *
          arch.deltaFwd st.agent.delta1 (batch.nextState j)
            (arch.actorSample st.agent.actor (batch.nextState j)) / st.temp1) i) ∧
    (learnDiscorBatch arch opt targetEntropy gamma tau updatePolicy st
        batch).disCor_weights2 =
      (fun i => (B : ℝ) * softmax (fun j =>
        -(1 - batch.done j) * gamma *
          arch.deltaFwd st.agent.delta2 (batch.nextState j)
            (arch.actorSample st.agent.actor (batch.nextState j)) / st.temp2) i) ∧
    ∑ i, (learnDiscorBatch arch opt targetEntropy gamma tau updatePolicy st
        batch).disCor_weights1 i = B ∧
    ∑ i, (learnDiscorBatch arch opt targetEntropy gamma tau updatePolicy st
        batch).disCor_weights2 i = B :=
  ⟨rfl, rfl, sum_card_mul_softmax _, sum_card_mul_softmax _⟩

/-- Witness for C1: a one-element batch with both temperatures equal to 1. -/
theorem learn_discor_weights_sum_eq_batch_size_witness :
    0 < unitState.temp1 ∧ 0 < unitState.temp2 ∧
      ∑ i, (learnDiscorBatch unitArch unitOpt 0 0 0 true unitState
        unitBatch).disCor_weights1 i = ((1 : ℕ) : ℝ) :=
  ⟨one_pos, one_pos,
    (learn_discor_weights_sum_eq_batch_size unitArch unitOpt 0 0 0 true unitState
      unitBatch one_pos one_pos).2.2.1⟩

/-- C2: in every `learn_discor` call the TD target is
`reward + γ·(1−done)·(min(target_critic1(s′,a′), target_critic2(s′,a′)) −
exp(log_alpha)·logprob(a′))` where `a′` is a fresh action drawn from the live
actor's distribution at the next state — not the replayed action. -/
theorem learn_discor_td_target_eq {S A P Q : Type} {B : ℕ}
    (arch : Arch S A P Q) (opt : Optimizers P Q) (targetEntropy gamma tau : ℝ)
    (updatePolicy : Bool) (st : LearnState P Q) (batch : Batch S A B) :
    ∀ i, (learnDiscorBatch arch opt targetEntropy gamma tau updatePolicy st
        batch).td_target i =
      batch.reward i + gamma * (1 - batch.done i) *
        (min (arch.criticFwd st.targetAgent.critic1 (batch.nextState i)
                (arch.actorSample st.agent.actor (batch.nextState i)))
            (arch.criticFwd st.targetAgent.critic2 (batch.nextState i)
                (arch.actorSample st.agent.actor (batch.nextState i))) -
          Real.exp st.logAlpha * arch.actorLogProb st.agent.actor (batch.nextState i)) :=
  fun _ => rfl

/-- C3: in every `learn_discor` call the regression target for delta network k
is `|TD_error_k| + γ·(1−done)·target_delta_k(next_state, a′)`, where
`TD_error_k` is the TD target minus the pre-update live critic k's prediction
at the replayed (state, action), `target_delta_k` is the target agent's delta
network, and `a′` is the same next-action sample used for the TD target. -/
theorem learn_discor_delta_targets_eq {S A P Q : Type} {B : ℕ}
    (arch : Arch S A P Q) (opt : Optimizers P Q) (targetEntropy gamma tau : ℝ)
    (updatePolicy : Bool) (st : LearnState P Q) (batch : Batch S A B) :
    ∀ i,
      (learnDiscorBatch arch opt targetEntropy gamma tau updatePolicy st
          batch).target_delta1 i =
        |(learnDiscorBatch arch opt targetEntropy gamma tau updatePolicy st
            batch).td_target i -
          arch.criticFwd st.agent.critic1 (batch.state i) (batch.action i)| +
          gamma * (1 - batch.done i) *
            arch.deltaFwd st.targetAgent.delta1 (batch.nextState i)
              (arch.actorSample st.agent.actor (batch.nextState i)) ∧
      (learnDiscorBatch arch opt targetEntropy gamma tau updatePolicy st
          batch).target_delta2 i =
        |(learnDiscorBatch arch opt targetEntropy gamma tau updatePolicy st
            batch).td_target i -
          arch.criticFwd st.agent.critic2 (batch.state i) (batch.action i)| +
          gamma * (1 - batch.done i) *
            arch.deltaFwd st.targetAgent.delta2 (batch.nextState i)
              (arch.actorSample st.agent.actor (batch.nextState i)) :=
  fun _ => ⟨rfl, rfl⟩

/-- C4: a `learn_discor` call with `update_policy = False` leaves the actor's
parameters and `log_alpha` exactly as they were (and leaves the target agent
untouched as well; only critics, delta networks and temperatures are
mutated). -/
theorem learn_discor_no_policy_update_frame {S A P Q : Type} {B : ℕ}
    (arch : Arch S A P Q) (opt : Optimizers P Q) (targetEntropy gamma tau : ℝ)
    (st : LearnState P Q) (batch : Batch S A B) :
    (learnDiscorBatch arch opt targetEntropy gamma tau false st
        batch).agent.actor = st.agent.actor ∧
    (learnDiscorBatch arch opt targetEntropy gamma tau false st
        batch).logAlpha = st.logAlpha ∧
    (learnDiscorBatch arch opt targetEntropy gamma tau false st
        batch).targetAgent = st.targetAgent :=
  ⟨rfl, rfl, rfl⟩

/-- C5: calling `learn_discor` with a prioritized replay buffer fails with the
fatal assertion before any batch is sampled (the result does not depend on the
buffer's sampler) and before any state is produced; with a uniform buffer the
assertion passes and the update body runs on the sampled batch. -/
theorem learn_discor_prioritized_buffer_assert {S A P Q : Type}
    (arch : Arch S A P Q) (opt : Optimizers P Q) (targetEntropy : ℝ)
    (batchSize : ℕ) (gamma tau : ℝ) (updatePolicy : Bool)
    (buffer : ReplayBuffer S A) (st : LearnState P Q) :
    (buffer.prioritized = true →
      learn_discor arch opt targetEntropy batchSize gamma tau updatePolicy
          buffer st = Except.error prioritizedBufferMsg ∧
      ∀ f : (n : ℕ) → Batch S A n,
        learn_discor arch opt targetEntropy batchSize gamma tau updatePolicy
            { buffer with sample := f } st =
          learn_discor arch opt targetEntropy batchSize gamma tau updatePolicy
            buffer st) ∧
    (buffer.prioritized = false →
      learn_discor arch opt targetEntropy batchSize gamma tau updatePolicy
          buffer st =
        Except.ok (learnDiscorBatch arch opt targetEntropy gamma tau updatePolicy
          st (buffer.sample batchSize))) := by
  obtain ⟨p, smp⟩ := buffer
  cases p <;> simp [learn_discor]

/-- Witness for C5: a prioritized buffer is rejected, a uniform one accepted. -/
theorem learn_discor_prioritized_buffer_assert_witness :
    learn_discor unitArch unitOpt 0 1 0 0 true prioritizedUnitBuffer unitState =
      Except.error prioritizedBufferMsg ∧
    learn_discor unitArch unitOpt 0 1 0 0 true uniformUnitBuffer unitState =
      Except.ok (learnDiscorBatch unitArch unitOpt 0 0 0 true unitState
        (uniformUnitBuffer.sample 1)) :=
  ⟨((learn_discor_prioritized_buffer_assert unitArch unitOpt 0 1 0 0 true
      prioritizedUnitBuffer unitState).1 rfl).1,
    (learn_discor_prioritized_buffer_assert unitArch unitOpt 0 1 0 0 true
      uniformUnitBuffer unitState).2 rfl⟩

/-- C6: with infinite bootstrap enabled, a transition taken when
`steps_this_ep + 1 == max_episode_steps` is pushed to the buffer with
`done = False`, whatever done flag the environment's step returned. -/
theorem rollout_infinite_bootstrap_pushes_done_false
    (maxEpisodeSteps stepsThisEp : ℕ) (envDone : Bool)
    (h : stepsThisEp + 1 = maxEpisodeSteps) :
    (rolloutDoneFlags true maxEpisodeSteps stepsThisEp envDone).1 = false := by
  simp [rolloutDoneFlags, h]

/-- Witness for C6: a 5-step episode limit, fifth transition, environment
reporting done. -/
theorem rollout_infinite_bootstrap_pushes_done_false_witness :
    4 + 1 = 5 ∧ (rolloutDoneFlags true 5 4 true).1 = false :=
  ⟨rfl, rollout_infinite_bootstrap_pushes_done_false 5 4 true rfl⟩

/-- C7: every `learn_discor` call updates each temperature exactly once by
`temp_k := temp_k·(1−τ) + τ·mean(delta_k_pred)` where `delta_k_pred` is the
live delta network k's prediction at the replayed batch (state, action). -/
theorem learn_discor_temperature_update {S A P Q : Type} {B : ℕ}
    (arch : Arch S A P Q) (opt : Optimizers P Q) (targetEntropy gamma tau : ℝ)
    (updatePolicy : Bool) (st : LearnState P Q) (batch : Batch S A B) :
    (learnDiscorBatch arch opt targetEntropy gamma tau updatePolicy st
        batch).temp1 =
      st.temp1 * (1 - tau) + tau * batchMean (fun i =>
        arch.deltaFwd st.agent.delta1 (batch.state i) (batch.action i)) ∧
    (learnDiscorBatch arch opt targetEntropy gamma tau updatePolicy st
        batch).temp2 =
      st.temp2 * (1 - tau) + tau * batchMean (fun i =>
        arch.deltaFwd st.agent.delta2 (batch.state i) (batch.action i)) :=
  ⟨rfl, rfl⟩

/-- C8: in every `learn_discor` call the reweighting softmax evaluates the
live agent's delta networks while the delta-target bootstrap evaluates the
target agent's delta networks, both at the shared next-state/next-action
sample. -/
theorem learn_discor_live_target_delta_asymmetry {S A P Q : Type} {B : ℕ}
    (arch : Arch S A P Q) (opt : Optimizers P Q) (targetEntropy gamma tau : ℝ)
    (updatePolicy : Bool) (st : LearnState P Q) (batch : Batch S A B) :
    ∀ i,
      (learnDiscorBatch arch opt targetEntropy gamma tau updatePolicy st
          batch).disCor_weights1 i =
        (B : ℝ) * softmax (fun j =>
          -(1 - batch.done j) * gamma *
            arch.deltaFwd st.agent.delta1 (batch.nextState j)
              ((learnDiscorBatch arch opt targetEntropy gamma tau updatePolicy st
                batch).action_s1 j) / st.temp1) i ∧
      (learnDiscorBatch arch opt targetEntropy gamma tau updatePolicy st
          batch).disCor_weights2 i =
        (B : ℝ) * softmax (fun j =>
          -(1 - batch.done j) * gamma *
            arch.deltaFwd st.agent.delta2 (batch.nextState j)
              ((learnDiscorBatch arch opt targetEntropy gamma tau updatePolicy st
                batch).action_s1 j) / st.temp2) i ∧
      (learnDiscorBatch arch opt targetEntropy gamma tau updatePolicy st
          batch).target_delta1 i =
        |(learnDiscorBatch arch opt targetEntropy gamma tau updatePolicy st
            batch).td_error1 i| +
          gamma * (1 - batch.done i) *
            arch.deltaFwd st.targetAgent.delta1 (batch.nextState i)
              ((learnDiscorBatch arch opt targetEntropy gamma tau updatePolicy st
                batch).action_s1 i) ∧
      (learnDiscorBatch arch opt targetEntropy gamma tau updatePolicy st
          batch).target_delta2 i =
        |(learnDiscorBatch arch opt targetEntropy gamma tau updatePolicy st
            batch).td_error2 i| +
          gamma * (1 - batch.done i) *
            arch.deltaFwd st.targetAgent.delta2 (batch.nextState i)
              ((learnDiscorBatch arch opt targetEntropy gamma tau updatePolicy st
                batch).action_s1 i) :=
  fun _ => ⟨rfl, rfl, rfl, rfl⟩

/-- C9: the target agent's critic1/critic2/delta1/delta2 parameters are set by
the hard sync at initialization, preserved untouched by the gradient-update
phase of every step, preserved by whole steps with
`step % target_delay ≠ 0`, and moved by the parameter-wise soft update
`target := target·(1−τ) + live·τ` on steps with `step % target_delay = 0`
(where the live parameters are those after that step's gradient updates; the
target actor is never touched after initialization). -/
theorem discor_target_network_schedule {S A P Q : Type} {Bsz : ℕ}
    (cfg : LoopCfg S A P Q Bsz) (agent : DisCorAgent P Q) (step : ℕ)
    (st : LearnState P Q) :
    (initTargetAgent agent).critic1 = agent.critic1 ∧
    (initTargetAgent agent).critic2 = agent.critic2 ∧
    (initTargetAgent agent).delta1 = agent.delta1 ∧
    (initTargetAgent agent).delta2 = agent.delta2 ∧
    (gradientPhase cfg step st).targetAgent = st.targetAgent ∧
    (step % cfg.targetDelay ≠ 0 →
      (discorStepBody cfg step st).targetAgent = st.targetAgent) ∧
    (step % cfg.targetDelay = 0 →
      (discorStepBody cfg step st).targetAgent.critic1 =
        soft_update st.targetAgent.critic1
          (gradientPhase cfg step st).agent.critic1 cfg.tau ∧
      (discorStepBody cfg step st).targetAgent.critic2 =
        soft_update st.targetAgent.critic2
          (gradientPhase cfg step st).agent.critic2 cfg.tau ∧
      (discorStepBody cfg step st).targetAgent.delta1 =
        soft_update st.targetAgent.delta1
          (gradientPhase cfg step st).agent.delta1 cfg.tau ∧
      (discorStepBody cfg step st).targetAgent.delta2 =
        soft_update st.targetAgent.delta2
          (gradientPhase cfg step st).agent.delta2 cfg.tau ∧
      (discorStepBody cfg step st).targetAgent.actor = st.targetAgent.actor) := by
  refine ⟨rfl, rfl, rfl, rfl, gradientPhase_targetAgent cfg step st, ?_, ?_⟩
  · intro h
    simp only [discorStepBody, if_neg h]
    exact gradientPhase_targetAgent cfg step st
  · intro h
    simp [discorStepBody, if_pos h, gradientPhase_targetAgent cfg step st]

/-- Witness for C9: with `target_delay = 2`, step 1 leaves the target agent
unchanged and step 2 soft-updates its first critic. -/
theorem discor_target_network_schedule_witness :
    (1 % unitCfg.targetDelay ≠ 0 ∧
      (discorStepBody unitCfg 1 unitState).targetAgent = unitState.targetAgent) ∧
    (2 % unitCfg.targetDelay = 0 ∧
      (discorStepBody unitCfg 2 unitState).targetAgent.critic1 =
        soft_update unitState.targetAgent.critic1
          (gradientPhase unitCfg 2 unitState).agent.critic1 unitCfg.tau) :=
  ⟨⟨by decide,
      (discor_target_network_schedule unitCfg unitAgent 1
        unitState).2.2.2.2.2.1 (by decide)⟩,
    ⟨rfl,
      ((discor_target_network_schedule unitCfg unitAgent 2
        unitState).2.2.2.2.2.2 rfl).1⟩⟩

/-- C10: for every observation, every component of the action returned by
`DisCorAgent.forward` and `DisCorAgent.sample_action` with `from_cpu = True`
lies in the closed interval [-1, 1], because `process_act` clamps the raw
network output componentwise. -/
theorem agent_returned_actions_clamped {S P Q : Type} {m : ℕ}
    (arch : Arch S (Fin m → ℝ) P Q) (agent : DisCorAgent P Q) (state : S) :
    (∀ i, -1 ≤ DisCorAgent.forward arch agent state true i ∧
        DisCorAgent.forward arch agent state true i ≤ 1) ∧
    (∀ i, -1 ≤ DisCorAgent.sample_action arch agent state true i ∧
        DisCorAgent.sample_action arch agent state true i ≤ 1) := by
  constructor <;> intro i <;>
    exact ⟨le_min (le_max_right _ _) (by norm_num), min_le_right _ _⟩

end DeepControl
